import Mathlib

/-!
Shallow embedding of the deterministic decision layer of the
personal-accountant repository: the time-reference resolver and
intent-to-query normalizer (`src/agents/ai_agents.py`), the structured
query executor (`src/queries/executor.py`), and the two-stage validation
pipeline with duplicate detection (`src/validation/validator.py`,
`src/services/storage/google_sheets.py`).

Python `datetime.date` values are modelled by the `SDate` structure with
explicit calendar arithmetic; `Decimal` / `float` amounts are modelled by
exact rationals; Python dictionaries appearing in query results are
modelled as association lists over an inductive `JVal` value type.
-/

namespace PersonalAccountant

/-! ## Calendar dates (model of Python datetime.date arithmetic) -/

/-- A calendar date, mirroring Python `datetime.date(year, month, day)`. -/
structure SDate where
  year : Nat
  month : Nat
  day : Nat
deriving DecidableEq, Repr

/-- Lexicographic order on dates, mirroring Python date comparison. -/
def SDate.ble (a b : SDate) : Bool :=
  Nat.blt a.year b.year ||
    (a.year == b.year &&
      (Nat.blt a.month b.month ||
        (a.month == b.month && Nat.ble a.day b.day)))

/-- Strict lexicographic order on dates. -/
def SDate.blt (a b : SDate) : Bool :=
  Nat.blt a.year b.year ||
    (a.year == b.year &&
      (Nat.blt a.month b.month ||
        (a.month == b.month && Nat.blt a.day b.day)))

/-- Gregorian leap-year rule (as implemented by Python `calendar`/`date`). -/
def isLeap (y : Nat) : Bool :=
  y % 4 == 0 && (y % 100 != 0 || y % 400 == 0)

/-- Number of days in a month of a given year.  Out-of-range months
default to 31; the embedded code only applies this to months 1..12. -/
def daysInMonth (y m : Nat) : Nat :=
  if m = 2 then (if isLeap y then 29 else 28)
  else if m = 4 ∨ m = 6 ∨ m = 9 ∨ m = 11 then 30
  else 31

/-- Model of Python `d - timedelta(days=1)` on a valid date. -/
def prevDay (d : SDate) : SDate :=
  if 1 < d.day then ⟨d.year, d.month, d.day - 1⟩
  else if 1 < d.month then ⟨d.year, d.month - 1, daysInMonth d.year (d.month - 1)⟩
  else ⟨d.year - 1, 12, 31⟩

/-- Model of Python `d + timedelta(days=1)` on a valid date. -/
def nextDay (d : SDate) : SDate :=
  if d.day < daysInMonth d.year d.month then ⟨d.year, d.month, d.day + 1⟩
  else if d.month < 12 then ⟨d.year, d.month + 1, 1⟩
  else ⟨d.year + 1, 1, 1⟩

/-- Model of Python `d + timedelta(days=n)`. -/
def addDays (d : SDate) : Nat → SDate
  | 0 => d
  | n + 1 => nextDay (addDays d n)

/-- Model of Python `d - timedelta(days=n)`. -/
def subDays (d : SDate) : Nat → SDate
  | 0 => d
  | n + 1 => prevDay (subDays d n)

/-! ## String helpers (models of the Python string operations used) -/

/-- Boolean check that `needle` occurs as a contiguous sublist of `hay`. -/
def listInfix (needle : List Char) : List Char → Bool
  | [] => needle.isEmpty
  | b :: bs => needle.isPrefixOf (b :: bs) || listInfix needle bs

/-- Model of Python `needle in hay` (substring containment). -/
def strContains (hay needle : String) : Bool :=
  listInfix needle.toList hay.toList

/-- Model of Python `str.lower()` (the code only feeds it ASCII). -/
def strLower (s : String) : String :=
  String.mk (s.toList.map Char.toLower)

/-- Model of Python `str.strip()`: drop whitespace from both ends. -/
def strTrim (s : String) : String :=
  String.mk (((s.toList.dropWhile Char.isWhitespace).reverse.dropWhile
      Char.isWhitespace).reverse)

/-! ## Time-reference resolution (QueryAgent._resolve_time_reference) -/

/-- The month-name table from `_resolve_time_reference`, in the insertion
order of the Python dict (iteration order is preserved). -/
def monthNames : List (String × Nat) :=
  [("january", 1), ("february", 2), ("march", 3), ("april", 4),
   ("may", 5), ("june", 6), ("july", 7), ("august", 8),
   ("september", 9), ("october", 10), ("november", 11), ("december", 12)]

/-- Model of the regex search for a four-digit year token of the form
"20dd": leftmost occurrence of the pattern character 2, character 0,
digit, digit; returns the matched year. -/
def findYearToken : List Char → Option Nat
  | '2' :: '0' :: c :: d :: rest =>
      if c.isDigit && d.isDigit then
        some (2000 + 10 * (c.toNat - 48) + (d.toNat - 48))
      else findYearToken ('0' :: c :: d :: rest)
  | _ :: rest => findYearToken rest
  | [] => none
termination_by l => l.length

/-- Model of `QueryAgent._resolve_time_reference`: convert a natural
language time reference into an inclusive date range, relative to an
injected `today`.  Returns `(none, none)` when no rule matches. -/
def resolveTimeReference (today : SDate) (timeRef : Option String) :
    Option SDate × Option SDate :=
  match timeRef with
  | none => (none, none)
  | some raw =>
    if raw = "" then (none, none)
    else
      let t := strTrim (strLower raw)
      if t = "this month" ∨ t = "current month" then
        let start : SDate := ⟨today.year, today.month, 1⟩
        let e :=
          if today.month = 12 then prevDay ⟨today.year + 1, 1, 1⟩
          else prevDay ⟨today.year, today.month + 1, 1⟩
        (some start, some e)
      else if t = "last month" ∨ t = "previous month" then
        let firstOfThisMonth : SDate := ⟨today.year, today.month, 1⟩
        let e := prevDay firstOfThisMonth
        (some ⟨e.year, e.month, 1⟩, some e)
      else if t = "this year" ∨ t = "current year" then
        (some ⟨today.year, 1, 1⟩, some ⟨today.year, 12, 31⟩)
      else if t = "last year" ∨ t = "previous year" then
        (some ⟨today.year - 1, 1, 1⟩, some ⟨today.year - 1, 12, 31⟩)
      else
        match monthNames.find? (fun p => strContains t p.1) with
        | some p =>
            let y := if p.2 > today.month then today.year - 1 else today.year
            let start : SDate := ⟨y, p.2, 1⟩
            let e :=
              if p.2 = 12 then prevDay ⟨y + 1, 1, 1⟩
              else prevDay ⟨y, p.2 + 1, 1⟩
            (some start, some e)
        | none =>
            match findYearToken t.toList with
            | some y => (some ⟨y, 1, 1⟩, some ⟨y, 12, 31⟩)
            | none => (none, none)

/-! ## Core enums and records (src/models/bill.py) -/

/-- Model of the `BillCategory` string enum. -/
inductive BillCategory
  | electricity | water | gas | internet | mobile | groceries
  | medical | insurance | rent | maintenance | fuel | other
deriving DecidableEq, Repr

/-- The `.value` string of a category. -/
def BillCategory.value : BillCategory → String
  | .electricity => "electricity"
  | .water => "water"
  | .gas => "gas"
  | .internet => "internet"
  | .mobile => "mobile"
  | .groceries => "groceries"
  | .medical => "medical"
  | .insurance => "insurance"
  | .rent => "rent"
  | .maintenance => "maintenance"
  | .fuel => "fuel"
  | .other => "other"

/-- Model of the Python enum constructor `BillCategory(s)`: exact match on
the enum value, `none` where Python raises `ValueError`. -/
def BillCategory.fromString (s : String) : Option BillCategory :=
  if s = "electricity" then some .electricity
  else if s = "water" then some .water
  else if s = "gas" then some .gas
  else if s = "internet" then some .internet
  else if s = "mobile" then some .mobile
  else if s = "groceries" then some .groceries
  else if s = "medical" then some .medical
  else if s = "insurance" then some .insurance
  else if s = "rent" then some .rent
  else if s = "maintenance" then some .maintenance
  else if s = "fuel" then some .fuel
  else if s = "other" then some .other
  else none

/-- Model of the `PaymentStatus` string enum. -/
inductive PaymentStatus
  | unpaid | paid | partial_ | overdue
deriving DecidableEq, Repr

/-- The `.value` string of a payment status. -/
def PaymentStatus.value : PaymentStatus → String
  | .unpaid => "unpaid"
  | .paid => "paid"
  | .partial_ => "partial"
  | .overdue => "overdue"

/-- Model of `ConfirmedBill` restricted to the fields the query executor
and duplicate detector read (timestamps, notes, image URLs and other
presentation-only fields are elided; `UUID` ids are modelled as strings;
`Decimal` amounts as exact rationals). -/
structure ConfirmedBill where
  id : String
  vendor_name : String
  category : BillCategory
  total_amount : ℚ
  bill_date : SDate
  due_date : Option SDate
  payment_status : PaymentStatus
  bill_number : Option String
deriving DecidableEq, Repr

/-- Model of `VendorInfo` restricted to the `name` field (address, contact
and account number are never read by the validation pipeline). -/
structure VendorInfo where
  name : String
deriving DecidableEq, Repr

/-- Model of `ExtractedBillData` restricted to the fields the validation
pipeline reads. -/
structure ExtractedBillData where
  extraction_id : String
  confidence_score : ℚ
  vendor : Option VendorInfo
  bill_number : Option String
  bill_date : Option SDate
  due_date : Option SDate
  billing_period_start : Option SDate
  billing_period_end : Option SDate
  subtotal : Option ℚ
  tax_amount : Option ℚ
  total_amount : Option ℚ
deriving DecidableEq, Repr

/-! ## Intent normalization (QueryAgent.intent_to_query) -/

/-- Model of `QueryIntent`: the loosely-typed hints produced upstream. -/
structure QueryIntent where
  query_type : String
  target_entity : String
  category : Option String
  vendor : Option String
  time_reference : Option String
  payment_status : Option String
  aggregation : Option String
  group_by : Option String
deriving DecidableEq, Repr

/-- Model of `StructuredQuery` (the `query_id` and `created_at` metadata
fields are modelled as a string id; `limit` defaults to 10 as in the
Pydantic model). -/
structure StructuredQuery where
  query_id : String
  original_question : String
  query_type : String
  category_filter : Option BillCategory
  vendor_filter : Option String
  date_from : Option SDate
  date_to : Option SDate
  payment_status_filter : Option PaymentStatus
  aggregation_type : Option String
  group_by : Option String
  limit : Nat
deriving DecidableEq, Repr

/-- The payment-status hint classification inside `intent_to_query`
(`src/agents/ai_agents.py` lines 493-501), applied to the lower-cased
hint.  Branch order follows the Python code exactly. -/
def classifyPaymentStatus (statusLower : String) : Option PaymentStatus :=
  if strContains statusLower "paid" && !(strContains statusLower "un") then
    some .paid
  else if strContains statusLower "unpaid" || strContains statusLower "not paid" then
    some .unpaid
  else if strContains statusLower "overdue" then
    some .overdue
  else none

/-- The aggregation hint normalization inside `intent_to_query`. -/
def classifyAggregation (aggLower : String) : Option String :=
  if aggLower = "sum" ∨ aggLower = "total" then some "sum"
  else if aggLower = "count" ∨ aggLower = "number" then some "count"
  else if aggLower = "average" ∨ aggLower = "avg" ∨ aggLower = "mean" then some "average"
  else if aggLower = "min" ∨ aggLower = "minimum" ∨ aggLower = "lowest" then some "min"
  else if aggLower = "max" ∨ aggLower = "maximum" ∨ aggLower = "highest" then some "max"
  else none

/-- The group-by hint normalization inside `intent_to_query`. -/
def classifyGroupBy (gLower : String) : Option String :=
  if gLower = "category" ∨ gLower = "type" then some "category"
  else if gLower = "vendor" ∨ gLower = "company" then some "vendor"
  else if gLower = "month" then some "month"
  else if gLower = "year" then some "year"
  else none

/-- Model of `QueryAgent.intent_to_query`: deterministic conversion of a
parsed intent into an executable structured query.  `today` is the
injected current date and `qid` the fresh query id. -/
def intentToQuery (today : SDate) (qid : String) (intent : QueryIntent)
    (originalQuestion : String) : StructuredQuery :=
  let range := resolveTimeReference today intent.time_reference
  let categoryFilter :=
    match intent.category with
    | none => none
    | some c => if c = "" then none else BillCategory.fromString (strLower c)
  let paymentFilter :=
    match intent.payment_status with
    | none => none
    | some s => if s = "" then none else classifyPaymentStatus (strLower s)
  let aggType :=
    match intent.aggregation with
    | none => none
    | some a => if a = "" then none else classifyAggregation (strLower a)
  let group :=
    match intent.group_by with
    | none => none
    | some g => if g = "" then none else classifyGroupBy (strLower g)
  { query_id := qid
    original_question := originalQuestion
    query_type := intent.query_type
    category_filter := categoryFilter
    vendor_filter := intent.vendor
    date_from := range.1
    date_to := range.2
    payment_status_filter := paymentFilter
    aggregation_type := aggType
    group_by := group
    limit := 10 }

/-! ## Validation pipeline (src/validation/validator.py) -/

/-- Model of `ValidationIssue` restricted to the fields the pipeline
branches on (the human-readable `message` and `suggested_fix` presentation
strings are elided). -/
structure ValidationIssue where
  field : String
  issue_type : String
  severity : String
deriving DecidableEq, Repr

/-- Model of `ValidationResult` (timestamps and the `warnings` message
list, which merely copies the warning issues' presentation strings, are
elided). -/
structure ValidationResult where
  extraction_id : String
  schema_valid : Bool
  semantic_valid : Bool
  is_valid : Bool
  can_proceed_with_review : Bool
  issues : List ValidationIssue
deriving DecidableEq, Repr

/-- The configurable thresholds read from `AppSettings`. -/
structure AppSettings where
  max_bill_amount_inr : ℚ
  future_date_tolerance_days : Nat
deriving DecidableEq, Repr

/-- Model of `BillValidator._validate_schema`: stage 1 structural checks.
Returns `(is_valid, issues)`; the stage is valid when no issue has
severity `error`. -/
def validateSchema (e : ExtractedBillData) : Bool × List ValidationIssue :=
  let issues : List ValidationIssue :=
    (match e.total_amount with
     | none => [⟨"total_amount", "missing", "error"⟩]
     | some t => if t ≤ 0 then [⟨"total_amount", "invalid_value", "error"⟩] else [])
    ++ (match e.vendor with
        | none => [⟨"vendor", "missing", "warning"⟩]
        | some v => if v.name = "" then [⟨"vendor", "missing", "warning"⟩] else [])
    ++ (match e.bill_date with
        | none => [⟨"bill_date", "missing", "warning"⟩]
        | some _ => [])
    ++ (if e.confidence_score < 1/2 then [⟨"confidence_score", "low_confidence", "warning"⟩] else [])
    ++ (if e.total_amount = none ∧ e.vendor = none ∧ e.bill_date = none then
          [⟨"extraction", "empty", "error"⟩]
        else [])
  (!(issues.any (fun i => i.severity == "error")), issues)

/-- The issue list of `BillValidator._validate_semantic`, parametrised by
the two date bounds computed at its top (`today + tolerance` and
`today - 2 years`).  Python `Decimal` truthiness (zero is falsy) is
reflected in the amount guards. -/
def semanticIssues (s : AppSettings) (maxFutureDate minReasonableDate : SDate)
    (e : ExtractedBillData) : List ValidationIssue :=
    (match e.bill_date with
     | some d => if SDate.blt maxFutureDate d then [⟨"bill_date", "future_date", "warning"⟩] else []
     | none => [])
    ++ (match e.bill_date with
        | some d => if SDate.blt d minReasonableDate then [⟨"bill_date", "suspicious_date", "warning"⟩] else []
        | none => [])
    ++ (match e.due_date, e.bill_date with
        | some dd, some bd => if SDate.blt dd bd then [⟨"due_date", "inconsistent", "warning"⟩] else []
        | _, _ => [])
    ++ (match e.total_amount with
        | some t => if t ≠ 0 ∧ t > s.max_bill_amount_inr then [⟨"total_amount", "suspicious_value", "warning"⟩] else []
        | none => [])
    ++ (match e.total_amount with
        | some t => if t ≠ 0 ∧ t < 1 then [⟨"total_amount", "suspicious_value", "warning"⟩] else []
        | none => [])
    ++ (match e.subtotal, e.tax_amount, e.total_amount with
        | some sub, some tax, some tot =>
            if sub ≠ 0 ∧ tax ≠ 0 ∧ tot ≠ 0 then
              let expected := sub + tax
              let tolerance := expected * (5/100)
              let diff := |tot - expected|
              if diff > tolerance ∧ diff > 10 then [⟨"total_amount", "inconsistent", "warning"⟩] else []
            else []
        | _, _, _ => [])
    ++ (match e.billing_period_start, e.billing_period_end with
        | some ps, some pe => if SDate.blt pe ps then [⟨"billing_period", "inconsistent", "warning"⟩] else []
        | _, _ => [])
    ++ (match e.vendor with
        | some v =>
            if v.name ≠ "" then
              let alphaCount := (v.name.toList.filter Char.isAlpha).length
              if 0 < v.name.toList.length ∧
                  (alphaCount : ℚ) / (v.name.toList.length : ℚ) < 3/10 then
                [⟨"vendor", "suspicious_value", "warning"⟩]
              else []
            else []
        | none => [])

/-- Model of `BillValidator._validate_semantic`: stage 2 plausibility
checks, relative to the injected `today` and settings. -/
def validateSemantic (s : AppSettings) (today : SDate) (e : ExtractedBillData) :
    Bool × List ValidationIssue :=
  let issues := semanticIssues s (addDays today s.future_date_tolerance_days)
    (subDays today (365 * 2)) e
  (!(issues.any (fun i => i.severity == "error")), issues)

/-! ## Google Sheets storage model (src/services/storage/google_sheets.py) -/

/-- Conjunctive filter predicate of `GoogleSheetsBillStorage.list_bills`:
category equality, case-insensitive vendor substring containment,
inclusive date range, payment-status equality; each applied only when the
filter value is truthy in Python (so an empty vendor string is ignored). -/
def matchesBillFilters (category : Option BillCategory) (vendor : Option String)
    (dateFrom dateTo : Option SDate) (payment : Option PaymentStatus)
    (b : ConfirmedBill) : Bool :=
  (match category with | none => true | some c => b.category == c)
  && (match vendor with
      | none => true
      | some v => v == "" || strContains (strLower b.vendor_name) (strLower v))
  && (match dateFrom with | none => true | some d => SDate.ble d b.bill_date)
  && (match dateTo with | none => true | some d => SDate.ble b.bill_date d)
  && (match payment with | none => true | some p => b.payment_status == p)

/-- Stable insertion of a bill into a list sorted by bill date descending
(the model of Python's stable `list.sort(key=..., reverse=True)`). -/
def insertByDateDesc (b : ConfirmedBill) : List ConfirmedBill → List ConfirmedBill
  | [] => [b]
  | y :: ys => if SDate.ble y.bill_date b.bill_date then b :: y :: ys
               else y :: insertByDateDesc b ys

/-- Stable sort of bills by bill date, newest first. -/
def sortByDateDesc (bills : List ConfirmedBill) : List ConfirmedBill :=
  bills.foldr insertByDateDesc []

/-- Model of `GoogleSheetsBillStorage.list_bills` over an in-memory list
of stored bills: filter, sort by date descending, paginate. -/
def listBills (stored : List ConfirmedBill) (category : Option BillCategory)
    (vendor : Option String) (dateFrom dateTo : Option SDate)
    (payment : Option PaymentStatus) (limit offset : Nat) : List ConfirmedBill :=
  (((sortByDateDesc
      (stored.filter (matchesBillFilters category vendor dateFrom dateTo payment))).drop
      offset).take limit)

/-- Model of `GoogleSheetsBillStorage.bill_exists`: a duplicate is
reported only when the extraction's bill number is truthy (present and
nonempty) and equals a listed bill's number. -/
def billExists (stored : List ConfirmedBill) (vendor : String)
    (billNumber : Option String) (billDate : SDate) : Bool :=
  (listBills stored none (some vendor) (some billDate) (some billDate) none 100 0).any
    (fun b =>
      match billNumber with
      | some n => (n != "") && (b.bill_number == some n)
      | none => false)

/-- Model of `BillValidator._check_duplicates`: requires a configured
storage and a truthy vendor and bill date on the extraction; otherwise no
issues.  The stored list stands for a record source that answers without
raising. -/
def checkDuplicates (storage : Option (List ConfirmedBill))
    (e : ExtractedBillData) : List ValidationIssue :=
  match storage with
  | none => []
  | some stored =>
    match e.vendor, e.bill_date with
    | some v, some d =>
        if billExists stored v.name e.bill_number d then
          [⟨"duplicate", "potential_duplicate", "warning"⟩]
        else []
    | _, _ => []

/-- Model of `BillValidator.validate`: the full two-stage pipeline.
Stage 2 and the duplicate check run only when stage 1 passes. -/
def validate (s : AppSettings) (today : SDate)
    (storage : Option (List ConfirmedBill)) (checkDup : Bool)
    (e : ExtractedBillData) : ValidationResult :=
  let schemaRes := validateSchema e
  let semRes :=
    if schemaRes.1 then
      let sem := validateSemantic s today e
      let dupIssues := if checkDup then checkDuplicates storage e else []
      (sem.1, sem.2 ++ dupIssues)
    else (false, [])
  let allIssues := schemaRes.2 ++ semRes.2
  let canProceed :=
    e.total_amount ≠ none ∧
      ¬ allIssues.any (fun i => i.severity == "error" && i.field != "vendor")
  { extraction_id := e.extraction_id
    schema_valid := schemaRes.1
    semantic_valid := semRes.1
    is_valid := schemaRes.1 && semRes.1
    can_proceed_with_review := decide canProceed
    issues := allIssues }

/-! ## Query executor (src/queries/executor.py) -/

/-- JSON-like values appearing in Python result dictionaries. -/
inductive JVal
  | s (v : String)
  | num (v : ℚ)
  | b (v : Bool)
  | null
  | dict (d : List (String × JVal))
deriving Repr

/-- Zero-padded two-digit rendering of a number. -/
def pad2 (n : Nat) : String :=
  if n < 10 then "0" ++ toString n else toString n

/-- Zero-padded four-digit rendering of a number. -/
def pad4 (n : Nat) : String :=
  if n < 10 then "000" ++ toString n
  else if n < 100 then "00" ++ toString n
  else if n < 1000 then "0" ++ toString n
  else toString n

/-- Model of Python `date.isoformat()`. -/
def isoFormat (d : SDate) : String :=
  pad4 d.year ++ "-" ++ pad2 d.month ++ "-" ++ pad2 d.day

/-- English abbreviated month name (strftime directive percent-b). -/
def monthAbbrev (m : Nat) : String :=
  if m = 1 then "Jan" else if m = 2 then "Feb" else if m = 3 then "Mar"
  else if m = 4 then "Apr" else if m = 5 then "May" else if m = 6 then "Jun"
  else if m = 7 then "Jul" else if m = 8 then "Aug" else if m = 9 then "Sep"
  else if m = 10 then "Oct" else if m = 11 then "Nov" else if m = 12 then "Dec"
  else ""

/-- English full month name (strftime directive percent-B). -/
def monthFull (m : Nat) : String :=
  if m = 1 then "January" else if m = 2 then "February" else if m = 3 then "March"
  else if m = 4 then "April" else if m = 5 then "May" else if m = 6 then "June"
  else if m = 7 then "July" else if m = 8 then "August" else if m = 9 then "September"
  else if m = 10 then "October" else if m = 11 then "November" else if m = 12 then "December"
  else ""

/-- Model of strftime "day abbreviated-month year". -/
def fmtDayMonthYear (d : SDate) : String :=
  pad2 d.day ++ " " ++ monthAbbrev d.month ++ " " ++ toString d.year

/-- Model of strftime "abbreviated-month year". -/
def fmtMonYear (d : SDate) : String :=
  monthAbbrev d.month ++ " " ++ toString d.year

/-- Model of `QueryExecutor._date_range_str`. -/
def dateRangeStr (dateFrom dateTo : Option SDate) : String :=
  match dateFrom, dateTo with
  | some f, some t =>
      if f = t then "on " ++ fmtDayMonthYear f
      else if f.month = t.month ∧ f.year = t.year then
        "in " ++ monthFull f.month ++ " " ++ toString f.year
      else if f.year = t.year then
        "from " ++ monthAbbrev f.month ++ " to " ++ fmtMonYear t
      else "from " ++ fmtMonYear f ++ " to " ++ fmtMonYear t
  | some f, none => "from " ++ fmtDayMonthYear f
  | none, some t => "until " ++ fmtDayMonthYear t
  | none, none => ""

/-- Model of `QueryExecutor._bill_to_dict`. -/
def billToDict (b : ConfirmedBill) : List (String × JVal) :=
  [("id", .s b.id),
   ("vendor_name", .s b.vendor_name),
   ("category", .s b.category.value),
   ("total_amount", .num b.total_amount),
   ("bill_date", .s (isoFormat b.bill_date)),
   ("due_date", match b.due_date with | some d => .s (isoFormat d) | none => .null),
   ("payment_status", .s b.payment_status.value),
   ("bill_number", match b.bill_number with | some n => .s n | none => .null)]

/-- Model of `QueryResult` (timestamps elided; the `query_id` is carried
through from the query). -/
structure QueryResult where
  query_id : String
  success : Bool
  error_message : Option String
  data_found : Bool
  result_count : Nat
  results : List (List (String × JVal))
  aggregation_result : Option (List (String × JVal))
  query_description : String
deriving Repr

/-- A record source: the behaviour of `storage.list_bills` as seen by the
executor, taking the five filters and a limit and either answering with a
list of bills or raising (modelled by `Except.error` carrying the
exception text). -/
def BillSource : Type :=
  Option BillCategory → Option String → Option SDate → Option SDate →
    Option PaymentStatus → Nat → Except String (List ConfirmedBill)

/-- Minimum of a nonempty amount list (Python `min`); 0 is never reached
because the executor only calls this on nonempty lists. -/
def listMin : List ℚ → ℚ
  | [] => 0
  | [a] => a
  | a :: rest => min a (listMin rest)

/-- Maximum of a nonempty amount list (Python `max`). -/
def listMax : List ℚ → ℚ
  | [] => 0
  | [a] => a
  | a :: rest => max a (listMax rest)

/-- Model of `QueryExecutor._execute_lookup`. -/
def executeLookup (src : BillSource) (q : StructuredQuery) :
    Except String QueryResult := do
  let bills ← src q.category_filter q.vendor_filter q.date_from q.date_to
    q.payment_status_filter q.limit
  let results := bills.map billToDict
  let descParts : List String :=
    ["Looking for bills"]
    ++ (match q.category_filter with
        | some c => ["category: " ++ c.value] | none => [])
    ++ (match q.vendor_filter with
        | some v => if v = "" then [] else ["vendor: " ++ v] | none => [])
    ++ (if q.date_from.isSome || q.date_to.isSome then
          [dateRangeStr q.date_from q.date_to] else [])
  .ok { query_id := q.query_id
        success := true
        error_message := none
        data_found := decide (0 < results.length)
        result_count := results.length
        results := results
        aggregation_result := none
        query_description := String.intercalate " | " descParts }

/-- Model of `QueryExecutor._execute_list`. -/
def executeList (src : BillSource) (q : StructuredQuery) :
    Except String QueryResult := do
  let bills ← src q.category_filter q.vendor_filter q.date_from q.date_to
    q.payment_status_filter q.limit
  let results := bills.map billToDict
  let descParts : List String :=
    ["Listing bills"]
    ++ (match q.category_filter with
        | some c => ["category: " ++ c.value] | none => [])
    ++ (match q.vendor_filter with
        | some v => if v = "" then [] else ["vendor: " ++ v] | none => [])
    ++ (match q.payment_status_filter with
        | some p => ["status: " ++ p.value] | none => [])
    ++ (if q.date_from.isSome || q.date_to.isSome then
          [dateRangeStr q.date_from q.date_to] else [])
  .ok { query_id := q.query_id
        success := true
        error_message := none
        data_found := decide (0 < results.length)
        result_count := results.length
        results := results
        aggregation_result := none
        query_description := String.intercalate " | " descParts }

/-- Group key selection in `QueryExecutor._execute_grouped_aggregate`. -/
def groupKey (groupBy : String) (b : ConfirmedBill) : String :=
  if groupBy = "category" then b.category.value
  else if groupBy = "vendor" then b.vendor_name
  else if groupBy = "month" then pad4 b.bill_date.year ++ "-" ++ pad2 b.bill_date.month
  else if groupBy = "year" then toString b.bill_date.year
  else "other"

/-- Append an amount under a group key, preserving first-occurrence key
order (the model of Python dict insertion order). -/
def addToGroups (gs : List (String × List ℚ)) (k : String) (v : ℚ) :
    List (String × List ℚ) :=
  match gs with
  | [] => [(k, [v])]
  | (k', vs) :: rest =>
      if k' = k then (k', vs ++ [v]) :: rest
      else (k', vs) :: addToGroups rest k v

/-- The per-group aggregation function of
`QueryExecutor._execute_grouped_aggregate` (default: sum). -/
def groupAggValue (aggregationType : Option String) (amounts : List ℚ) : ℚ :=
  if aggregationType = some "count" then (amounts.length : ℚ)
  else if aggregationType = some "average" then amounts.sum / (amounts.length : ℚ)
  else if aggregationType = some "min" then listMin amounts
  else if aggregationType = some "max" then listMax amounts
  else amounts.sum

/-- Model of `QueryExecutor._execute_grouped_aggregate`. -/
def groupedAggregate (bills : List ConfirmedBill) (groupBy : String)
    (aggregationType : Option String) : List (String × JVal) :=
  let groups := bills.foldl
    (fun gs b => addToGroups gs (groupKey groupBy b) b.total_amount) []
  groups.map (fun p => (p.1, JVal.num (groupAggValue aggregationType p.2)))

/-- The per-aggregation-kind entries of the aggregation payload built in
`QueryExecutor._execute_aggregate` (default: sum when the aggregation
type is unset). -/
def aggregationBase (aggType : Option String) (amounts : List ℚ) :
    List (String × JVal) :=
  if aggType = some "sum" ∨ aggType = none then
    [("total_amount", .num amounts.sum), ("bill_count", .num (amounts.length : ℚ))]
  else if aggType = some "count" then
    [("count", .num (amounts.length : ℚ))]
  else if aggType = some "average" then
    [("average_amount", .num (amounts.sum / (amounts.length : ℚ))),
     ("bill_count", .num (amounts.length : ℚ))]
  else if aggType = some "min" then
    [("minimum_amount", .num (listMin amounts))]
  else if aggType = some "max" then
    [("maximum_amount", .num (listMax amounts))]
  else []

/-- The full `aggregation_result` dictionary built in
`QueryExecutor._execute_aggregate`: the base entries plus, when a truthy
`group_by` is set, the grouped breakdown. -/
def aggregationPayload (aggType groupBy : Option String)
    (bills : List ConfirmedBill) : List (String × JVal) :=
  let base := aggregationBase aggType (bills.map (·.total_amount))
  match groupBy with
  | some g =>
      if g = "" then base
      else base ++ [("breakdown", .dict (groupedAggregate bills g aggType))]
  | none => base

/-- Model of `QueryExecutor._execute_aggregate` (also the implementation
of `compare`, which aliases it). -/
def executeAggregate (src : BillSource) (q : StructuredQuery) :
    Except String QueryResult := do
  let bills ← src q.category_filter q.vendor_filter q.date_from q.date_to
    q.payment_status_filter 1000
  if bills.isEmpty then
    .ok { query_id := q.query_id
          success := true
          error_message := none
          data_found := false
          result_count := 0
          results := []
          aggregation_result := none
          query_description := "No bills found for aggregation" }
  else
    let descParts : List String :=
      (match q.aggregation_type with
       | some a => if a = "" then ["Calculating total"] else ["Calculating " ++ a]
       | none => ["Calculating total"])
      ++ (match q.category_filter with
          | some c => ["for " ++ c.value] | none => [])
      ++ (match q.vendor_filter with
          | some v => if v = "" then [] else ["from " ++ v] | none => [])
      ++ (if q.date_from.isSome || q.date_to.isSome then
            [dateRangeStr q.date_from q.date_to] else [])
      ++ (match q.group_by with
          | some g => if g = "" then [] else ["grouped by " ++ g] | none => [])
    .ok { query_id := q.query_id
          success := true
          error_message := none
          data_found := true
          result_count := bills.length
          results := []
          aggregation_result := some (aggregationPayload q.aggregation_type q.group_by bills)
          query_description := String.intercalate " " descParts }

/-- Model of `QueryExecutor._execute_exists`. -/
def executeExists (src : BillSource) (q : StructuredQuery) :
    Except String QueryResult := do
  let bills ← src q.category_filter q.vendor_filter q.date_from q.date_to
    q.payment_status_filter 1
  let ex := decide (0 < bills.length)
  let descParts : List String :=
    ["Checking if"]
    ++ (match q.category_filter with
        | some c => [c.value ++ " bill"] | none => ["bill"])
    ++ (match q.payment_status_filter with
        | some p => ["was " ++ p.value] | none => [])
    ++ (match q.vendor_filter with
        | some v => if v = "" then [] else ["from " ++ v] | none => [])
    ++ (if q.date_from.isSome || q.date_to.isSome then
          [dateRangeStr q.date_from q.date_to] else [])
  let base : List (List (String × JVal)) :=
    [[("exists", .b ex), ("answer", .s (if ex then "yes" else "no"))]]
  let resultData :=
    match bills with
    | [] => base
    | b :: _ => base ++ [billToDict b]
  .ok { query_id := q.query_id
        success := true
        error_message := none
        data_found := ex
        result_count := if ex then 1 else 0
        results := resultData
        aggregation_result := none
        query_description := String.intercalate " " descParts }

/-- Model of the dispatch in `QueryExecutor.execute`, before exception
handling: unknown query types fall through to `list`. -/
def executeInner (src : BillSource) (q : StructuredQuery) :
    Except String QueryResult :=
  if q.query_type = "lookup" then executeLookup src q
  else if q.query_type = "list" then executeList src q
  else if q.query_type = "aggregate" then executeAggregate src q
  else if q.query_type = "exists" then executeExists src q
  else if q.query_type = "compare" then executeAggregate src q
  else executeList src q

/-- Model of `QueryExecutor.execute`: any exception raised while
executing is converted into a failed `QueryResult`; the function is total
and never propagates an error. -/
def execute (src : BillSource) (q : StructuredQuery) : QueryResult :=
  match executeInner src q with
  | .ok r => r
  | .error e =>
      { query_id := q.query_id
        success := false
        error_message := some e
        data_found := false
        result_count := 0
        results := []
        aggregation_result := none
        query_description := "Query failed: " ++ e }

/-! ## Concrete inputs used by counterexamples and witnesses -/

/-- An extraction from which nothing was recovered: no amount, no vendor,
no bill date. -/
def emptyExtraction : ExtractedBillData :=
  { extraction_id := "x-empty"
    confidence_score := 1
    vendor := none
    bill_number := none
    bill_date := none
    due_date := none
    billing_period_start := none
    billing_period_end := none
    subtotal := none
    tax_amount := none
    total_amount := none }

/-! ## C1 -/

/-- C1: the spec claims the payment-status hint "not paid" maps to
UNPAID.  The code checks the PAID branch first, guarded only by the
absence of the substring "un", so the hint "not paid" (which contains
"paid" and no "un") is mapped to PAID; the "not paid" test in the UNPAID
branch is unreachable for it.  This theorem evaluates the embedded code at
the failing input, exhibiting the divergence from the claim. -/
theorem c1_not_paid_hint_maps_to_paid :
    (intentToQuery ⟨2025, 6, 1⟩ "q1"
      { query_type := "list", target_entity := "bill", category := none,
        vendor := none, time_reference := none,
        payment_status := some "not paid", aggregation := none,
        group_by := none }
      "show my not paid bills").payment_status_filter = some PaymentStatus.paid
    ∧ classifyPaymentStatus "not paid" = some PaymentStatus.paid := by
  constructor <;> rfl

/-! ## C2 -/

/-- C2 counterexample: with amount, vendor and bill date all absent,
schema validation emits TWO error-severity issues — `missing` on
`total_amount` and `empty` on `extraction` — so the claim that exactly one
error-severity issue (of type `empty`) is produced fails at this input. -/
theorem c2_counterexample :
    (((validateSchema emptyExtraction).2.filter
        (fun i => i.severity == "error")).map (fun i => (i.field, i.issue_type)))
      = [("total_amount", "missing"), ("extraction", "empty")]
    ∧ ¬ ((validateSchema emptyExtraction).2.filter
          (fun i => i.severity == "error")).length = 1 := by
  refine ⟨?_, ?_⟩
  · norm_num [validateSchema, emptyExtraction]
    simp
  · norm_num [validateSchema, emptyExtraction]

/-- C2 amended: for every extraction in which total amount, vendor and
bill date are all absent, schema validation produces exactly two
error-severity issues: `missing` on `total_amount` and `empty` on
`extraction` (warnings may accompany them). -/
theorem c2_all_absent_yields_missing_and_empty_errors
    (e : ExtractedBillData) (hamt : e.total_amount = none)
    (hven : e.vendor = none) (hdat : e.bill_date = none) :
    (validateSchema e).2.filter (fun i => i.severity == "error")
      = [⟨"total_amount", "missing", "error"⟩, ⟨"extraction", "empty", "error"⟩] := by
  unfold validateSchema
  rw [hamt, hven, hdat]
  by_cases hc : e.confidence_score < 1/2 <;>
    simp [hc, List.filter_append]

/-- C2 amended, witness: the amended theorem applied to the concrete
all-absent extraction. -/
theorem c2_all_absent_witness :
    (validateSchema emptyExtraction).2.filter (fun i => i.severity == "error")
      = [⟨"total_amount", "missing", "error"⟩, ⟨"extraction", "empty", "error"⟩] :=
  c2_all_absent_yields_missing_and_empty_errors emptyExtraction rfl rfl rfl

/-! ## C4 -/

/-- C4: whenever executing the query raises (the dispatched handler
propagates an error from the record source), `execute` catches it and
returns a `QueryResult` with `success = false`, `data_found = false`,
`result_count = 0` and the exception text folded into the query
description; `execute` itself is a total function and never propagates the
error. -/
theorem c4_execute_catches_all_errors (src : BillSource) (q : StructuredQuery)
    (e : String) (h : executeInner src q = .error e) :
    execute src q =
      { query_id := q.query_id
        success := false
        error_message := some e
        data_found := false
        result_count := 0
        results := []
        aggregation_result := none
        query_description := "Query failed: " ++ e } := by
  unfold execute
  rw [h]

/-- A record source whose every call raises. -/
def failingSource : BillSource := fun _ _ _ _ _ _ => .error "sheet unavailable"

/-- A concrete list query used by executor witnesses. -/
def demoListQuery : StructuredQuery :=
  { query_id := "q-list"
    original_question := "list my bills"
    query_type := "list"
    category_filter := none
    vendor_filter := none
    date_from := none
    date_to := none
    payment_status_filter := none
    aggregation_type := none
    group_by := none
    limit := 10 }

/-- C4 witness: the theorem applied to a record source that always
raises. -/
theorem c4_execute_catches_all_errors_witness :
    execute failingSource demoListQuery =
      { query_id := demoListQuery.query_id
        success := false
        error_message := some "sheet unavailable"
        data_found := false
        result_count := 0
        results := []
        aggregation_result := none
        query_description := "Query failed: " ++ "sheet unavailable" } :=
  c4_execute_catches_all_errors failingSource demoListQuery "sheet unavailable" rfl

/-! ## Executor invariants -/

/-- The `lookup` handler satisfies the found/count invariant. -/
lemma executeLookup_found_iff_count (src : BillSource) (q : StructuredQuery)
    (r : QueryResult) (h : executeLookup src q = .ok r) :
    r.data_found = decide (0 < r.result_count) := by
  unfold executeLookup at h
  cases hsrc : src q.category_filter q.vendor_filter q.date_from q.date_to
      q.payment_status_filter q.limit with
  | error e => rw [hsrc] at h; exact Except.noConfusion h
  | ok bills =>
    rw [hsrc] at h
    cases Except.ok.inj h
    rfl

/-- The `list` handler satisfies the found/count invariant. -/
lemma executeList_found_iff_count (src : BillSource) (q : StructuredQuery)
    (r : QueryResult) (h : executeList src q = .ok r) :
    r.data_found = decide (0 < r.result_count) := by
  unfold executeList at h
  cases hsrc : src q.category_filter q.vendor_filter q.date_from q.date_to
      q.payment_status_filter q.limit with
  | error e => rw [hsrc] at h; exact Except.noConfusion h
  | ok bills =>
    rw [hsrc] at h
    cases Except.ok.inj h
    rfl

/-- The `aggregate` handler satisfies the found/count invariant. -/
lemma executeAggregate_found_iff_count (src : BillSource) (q : StructuredQuery)
    (r : QueryResult) (h : executeAggregate src q = .ok r) :
    r.data_found = decide (0 < r.result_count) := by
  unfold executeAggregate at h
  cases hsrc : src q.category_filter q.vendor_filter q.date_from q.date_to
      q.payment_status_filter 1000 with
  | error e => rw [hsrc] at h; exact Except.noConfusion h
  | ok bills =>
    rw [hsrc] at h
    cases bills with
    | nil => cases Except.ok.inj h; rfl
    | cons b bs => cases Except.ok.inj h; simp

/-- The `exists` handler satisfies the found/count invariant. -/
lemma executeExists_found_iff_count (src : BillSource) (q : StructuredQuery)
    (r : QueryResult) (h : executeExists src q = .ok r) :
    r.data_found = decide (0 < r.result_count) := by
  unfold executeExists at h
  cases hsrc : src q.category_filter q.vendor_filter q.date_from q.date_to
      q.payment_status_filter 1 with
  | error e => rw [hsrc] at h; exact Except.noConfusion h
  | ok bills =>
    rw [hsrc] at h
    cases bills with
    | nil => cases Except.ok.inj h; rfl
    | cons b bs => cases Except.ok.inj h; simp

/-! ## C7 -/

/-- C7: every `QueryResult` produced by `execute` — for every query type,
every record-source behaviour, and on the caught-exception path —
satisfies `data_found = (result_count > 0)`. -/
theorem c7_data_found_iff_positive_count (src : BillSource) (q : StructuredQuery) :
    (execute src q).data_found = decide (0 < (execute src q).result_count) := by
  unfold execute
  cases hinner : executeInner src q with
  | error e => rfl
  | ok r =>
    unfold executeInner at hinner
    split_ifs at hinner with h1 h2 h3 h4 h5
    · exact executeLookup_found_iff_count src q r hinner
    · exact executeList_found_iff_count src q r hinner
    · exact executeAggregate_found_iff_count src q r hinner
    · exact executeExists_found_iff_count src q r hinner
    · exact executeAggregate_found_iff_count src q r hinner
    · exact executeList_found_iff_count src q r hinner

/-! ## C6 -/

/-- For an unset aggregation type the payload's `total_amount` entry is
the amount sum and its `bill_count` entry is the record count, whatever
`group_by` adds after them. -/
lemma aggregationPayload_none_lookups (groupBy : Option String)
    (bills : List ConfirmedBill) :
    (aggregationPayload none groupBy bills).lookup "total_amount"
      = some (.num (bills.map (fun b => b.total_amount)).sum)
    ∧ (aggregationPayload none groupBy bills).lookup "bill_count"
      = some (.num (bills.length : ℚ)) := by
  rcases groupBy with _ | g
  · simp [aggregationPayload, aggregationBase, List.lookup]
  · by_cases hg : g = "" <;>
      simp [aggregationPayload, aggregationBase, List.lookup, hg]

/-- C6: for an aggregate query with `aggregation_type` unset, zero
matching records yield `data_found = false` with no aggregation payload;
`n ≥ 1` matching records yield a payload whose `total_amount` is the sum
of the records' amounts and whose `bill_count` is `n`. -/
theorem c6_default_aggregation_sum_and_count (src : BillSource)
    (q : StructuredQuery) (bills : List ConfirmedBill)
    (hqt : q.query_type = "aggregate")
    (hagg : q.aggregation_type = none)
    (hsrc : src q.category_filter q.vendor_filter q.date_from q.date_to
      q.payment_status_filter 1000 = .ok bills) :
    (bills = [] → (execute src q).data_found = false ∧
       (execute src q).aggregation_result = none) ∧
    (bills ≠ [] → (execute src q).data_found = true ∧
       (execute src q).result_count = bills.length ∧
       ∃ d, (execute src q).aggregation_result = some d ∧
         d.lookup "total_amount"
           = some (.num (bills.map (fun b => b.total_amount)).sum) ∧
         d.lookup "bill_count" = some (.num (bills.length : ℚ))) := by
  have hdisp : executeInner src q = executeAggregate src q := by
    unfold executeInner
    rw [hqt]
    rfl
  have hexec : execute src q =
      (match executeAggregate src q with
       | .ok r => r
       | .error e =>
          { query_id := q.query_id
            success := false
            error_message := some e
            data_found := false
            result_count := 0
            results := []
            aggregation_result := none
            query_description := "Query failed: " ++ e }) := by
    unfold execute
    rw [hdisp]
  rw [hexec]
  unfold executeAggregate
  rw [hsrc]
  cases bills with
  | nil =>
    exact ⟨fun _ => ⟨rfl, rfl⟩, fun hne => absurd rfl hne⟩
  | cons b bs =>
    refine ⟨fun hew => List.noConfusion hew, fun _ => ⟨rfl, rfl, ?_⟩⟩
    refine ⟨aggregationPayload none q.group_by (b :: bs), ?_, ?_, ?_⟩
    · exact hagg ▸ rfl
    · exact (aggregationPayload_none_lookups q.group_by (b :: bs)).1
    · exact (aggregationPayload_none_lookups q.group_by (b :: bs)).2

/-- Reduction of the Except bind on a successful value (used to unfold
the executor's do-notation in proofs). -/
lemma exceptBindOk {α β : Type} (a : α) (f : α → Except String β) :
    ((Except.ok a : Except String α) >>= f) = f a := rfl

/-- Three stored bills with amounts 100, 200 and 300 (the spec's
aggregation example). -/
def demoAmountBills : List ConfirmedBill :=
  [⟨"b1", "Vendor A", .electricity, 100, ⟨2025, 3, 1⟩, none, .paid, none⟩,
   ⟨"b2", "Vendor B", .water, 200, ⟨2025, 3, 2⟩, none, .paid, none⟩,
   ⟨"b3", "Vendor C", .gas, 300, ⟨2025, 3, 3⟩, none, .unpaid, none⟩]

/-- A record source answering every request with the three demo bills. -/
def demoAmountSource : BillSource := fun _ _ _ _ _ _ => .ok demoAmountBills

/-- A concrete aggregate query with no aggregation type set. -/
def demoAggQuery : StructuredQuery :=
  { query_id := "q-agg"
    original_question := "how much did I spend"
    query_type := "aggregate"
    category_filter := none
    vendor_filter := none
    date_from := none
    date_to := none
    payment_status_filter := none
    aggregation_type := none
    group_by := none
    limit := 10 }

/-- C6 witness: the aggregate theorem applied to the spec's `[100, 200,
300]` example. -/
theorem c6_default_aggregation_witness :
    (execute demoAmountSource demoAggQuery).data_found = true ∧
    (execute demoAmountSource demoAggQuery).result_count = demoAmountBills.length ∧
    ∃ d, (execute demoAmountSource demoAggQuery).aggregation_result = some d ∧
      d.lookup "total_amount"
        = some (.num (demoAmountBills.map (fun b => b.total_amount)).sum) ∧
      d.lookup "bill_count" = some (.num (demoAmountBills.length : ℚ)) :=
  (c6_default_aggregation_sum_and_count demoAmountSource demoAggQuery
      demoAmountBills rfl rfl rfl).2 (fun h => List.noConfusion h)

/-! ## C10 -/

/-- C10: for every exists query, the first entry of `results` is the
exists/answer mapping; when a match exists the matching record's field
mapping is appended as a second entry while `result_count` stays 1, so
`result_count` differs from the length of `results`. -/
theorem c10_exists_results_shape (src : BillSource) (q : StructuredQuery)
    (bills : List ConfirmedBill)
    (hqt : q.query_type = "exists")
    (hsrc : src q.category_filter q.vendor_filter q.date_from q.date_to
      q.payment_status_filter 1 = .ok bills) :
    ((execute src q).results.head? = some
        [("exists", JVal.b (decide (0 < bills.length))),
         ("answer", JVal.s (if 0 < bills.length then "yes" else "no"))]) ∧
    (bills = [] → (execute src q).result_count = 0 ∧
       (execute src q).results.length = 1) ∧
    (∀ b bs, bills = b :: bs →
       (execute src q).result_count = 1 ∧
       (execute src q).results =
         [[("exists", JVal.b true), ("answer", JVal.s "yes")], billToDict b] ∧
       (execute src q).results.length ≠ (execute src q).result_count) := by
  have hdisp : executeInner src q = executeExists src q := by
    unfold executeInner
    rw [hqt]
    rfl
  have hexec : execute src q =
      (match executeExists src q with
       | .ok r => r
       | .error e =>
          { query_id := q.query_id
            success := false
            error_message := some e
            data_found := false
            result_count := 0
            results := []
            aggregation_result := none
            query_description := "Query failed: " ++ e }) := by
    unfold execute
    rw [hdisp]
  rw [hexec]
  unfold executeExists
  rw [hsrc]
  cases bills with
  | nil =>
    exact ⟨rfl, fun _ => ⟨rfl, rfl⟩, fun b bs h => List.noConfusion h⟩
  | cons b bs =>
    refine ⟨?_, fun h => List.noConfusion h, fun b' bs' h => ?_⟩
    · simp [exceptBindOk]
    · injection h with h1 h2
      subst h1
      subst h2
      refine ⟨?_, ?_, ?_⟩ <;> simp [exceptBindOk, billToDict]

/-- A stored bill used by the exists-query witness. -/
def demoExistsBill : ConfirmedBill :=
  ⟨"bx", "Amazon", .other, 250, ⟨2025, 2, 10⟩, none, .paid, some "INV-9"⟩

/-- A record source with exactly one matching bill. -/
def demoExistsSource : BillSource := fun _ _ _ _ _ _ => .ok [demoExistsBill]

/-- A concrete exists query. -/
def demoExistsQuery : StructuredQuery :=
  { query_id := "q-exists"
    original_question := "did I pay amazon"
    query_type := "exists"
    category_filter := none
    vendor_filter := some "amazon"
    date_from := none
    date_to := none
    payment_status_filter := none
    aggregation_type := none
    group_by := none
    limit := 10 }

/-- C10 witness: the exists-shape theorem applied to a source holding one
matching bill. -/
theorem c10_exists_results_witness :
    ((execute demoExistsSource demoExistsQuery).results.head? = some
        [("exists", JVal.b (decide (0 < ([demoExistsBill] : List ConfirmedBill).length))),
         ("answer", JVal.s (if 0 < ([demoExistsBill] : List ConfirmedBill).length
            then "yes" else "no"))]) ∧
    (([demoExistsBill] : List ConfirmedBill) = [] →
       (execute demoExistsSource demoExistsQuery).result_count = 0 ∧
       (execute demoExistsSource demoExistsQuery).results.length = 1) ∧
    (∀ b bs, ([demoExistsBill] : List ConfirmedBill) = b :: bs →
       (execute demoExistsSource demoExistsQuery).result_count = 1 ∧
       (execute demoExistsSource demoExistsQuery).results =
         [[("exists", JVal.b true), ("answer", JVal.s "yes")], billToDict b] ∧
       (execute demoExistsSource demoExistsQuery).results.length ≠
         (execute demoExistsSource demoExistsQuery).result_count) :=
  c10_exists_results_shape demoExistsSource demoExistsQuery [demoExistsBill] rfl rfl

/-! ## Date-order helper lemmas -/

/-- Every month length is at least 1 (in fact at least 28). -/
lemma daysInMonth_pos (y m : Nat) : 1 ≤ daysInMonth y m := by
  unfold daysInMonth
  split_ifs <;> omega

/-- The date order as a proposition on components. -/
lemma sdate_ble_iff (a b : SDate) :
    SDate.ble a b = true ↔
      (a.year < b.year ∨ (a.year = b.year ∧
        (a.month < b.month ∨ (a.month = b.month ∧ a.day ≤ b.day)))) := by
  unfold SDate.ble
  simp [Nat.blt, Nat.ble_eq, Nat.succ_le]

/-- Stepping back one day from the first of month `m + 1` lands on the
last day of month `m` of the same year. -/
lemma prevDay_month_first (y m : Nat) (hm : 1 ≤ m) :
    prevDay ⟨y, m + 1, 1⟩ = ⟨y, m, daysInMonth y m⟩ := by
  simp only [prevDay]
  split_ifs with h1 h2
  · exact absurd h1 (by omega)
  · have hmm : m + 1 - 1 = m := by omega
    rw [hmm]
  · exact absurd (by omega : (1 : Nat) < m + 1) h2

/-- Stepping back one day from January 1st lands on December 31st of the
previous year. -/
lemma prevDay_jan_first (y : Nat) : prevDay ⟨y + 1, 1, 1⟩ = ⟨y, 12, 31⟩ := by
  simp only [prevDay]
  split_ifs with h1
  · exact absurd h1 (by omega)
  · rw [Nat.add_sub_cancel]

/-- Month numbers in the resolver's table lie in 1..12. -/
lemma monthNames_bounds : ∀ p ∈ monthNames, 1 ≤ p.2 ∧ p.2 ≤ 12 := by decide

/-! ## C5 -/

/-- C5: a time phrase that contains a month name and matches none of the
relative-phrase rules resolves to the first through last day of that
month, in the current year when the month number is at most today's month
number and in the previous year when it exceeds it. -/
theorem c5_month_name_resolution (today : SDate) (s : String) (p : String × Nat)
    (hraw : ¬ s = "")
    (h1 : ¬(strTrim (strLower s) = "this month" ∨ strTrim (strLower s) = "current month"))
    (h2 : ¬(strTrim (strLower s) = "last month" ∨ strTrim (strLower s) = "previous month"))
    (h3 : ¬(strTrim (strLower s) = "this year" ∨ strTrim (strLower s) = "current year"))
    (h4 : ¬(strTrim (strLower s) = "last year" ∨ strTrim (strLower s) = "previous year"))
    (hfind : monthNames.find? (fun q => strContains (strTrim (strLower s)) q.1) = some p) :
    resolveTimeReference today (some s) =
      (some ⟨(if p.2 > today.month then today.year - 1 else today.year), p.2, 1⟩,
       some ⟨(if p.2 > today.month then today.year - 1 else today.year), p.2,
         daysInMonth (if p.2 > today.month then today.year - 1 else today.year) p.2⟩) := by
  have hp := monthNames_bounds p (List.mem_of_find?_eq_some hfind)
  simp only [resolveTimeReference]
  rw [if_neg hraw, if_neg h1, if_neg h2, if_neg h3, if_neg h4, hfind]
  show ((some (⟨(if p.2 > today.month then today.year - 1 else today.year), p.2, 1⟩ : SDate),
        some (if p.2 = 12
          then prevDay ⟨(if p.2 > today.month then today.year - 1 else today.year) + 1, 1, 1⟩
          else prevDay ⟨(if p.2 > today.month then today.year - 1 else today.year), p.2 + 1, 1⟩)) :
      Option SDate × Option SDate)
      = (some ⟨(if p.2 > today.month then today.year - 1 else today.year), p.2, 1⟩,
       some ⟨(if p.2 > today.month then today.year - 1 else today.year), p.2,
         daysInMonth (if p.2 > today.month then today.year - 1 else today.year) p.2⟩)
  by_cases h12 : p.2 = 12
  · rw [if_pos h12, prevDay_jan_first, h12]
    norm_num [daysInMonth]
  · rw [if_neg h12, prevDay_month_first _ _ hp.1]

/-- C5 witness: the phrase "December" asked on 2025-01-15 resolves to
December 1-31 of 2024. -/
theorem c5_month_name_resolution_witness :
    resolveTimeReference ⟨2025, 1, 15⟩ (some "December") =
      (some ⟨(if (12 : Nat) > 1 then 2025 - 1 else 2025), 12, 1⟩,
       some ⟨(if (12 : Nat) > 1 then 2025 - 1 else 2025), 12,
         daysInMonth (if (12 : Nat) > 1 then 2025 - 1 else 2025) 12⟩) :=
  c5_month_name_resolution ⟨2025, 1, 15⟩ "December" ("december", 12)
    (by decide) (by decide) (by decide) (by decide) (by decide) (by decide)

/-! ## C8 -/

/-- Comparison of two dates in the same year and month. -/
lemma sdate_ble_same (y m d1 d2 : Nat) (h : d1 ≤ d2) :
    SDate.ble ⟨y, m, d1⟩ ⟨y, m, d2⟩ = true := by
  rw [sdate_ble_iff]
  simp [h]

/-- January 1st is at most December 31st of the same year. -/
lemma sdate_ble_jan_dec (y : Nat) : SDate.ble ⟨y, 1, 1⟩ ⟨y, 12, 31⟩ = true := by
  rw [sdate_ble_iff]
  simp

/-- Stepping back one day from the first of a month after January lands
on the last day of the preceding month. -/
lemma prevDay_first_of_month (y m : Nat) (hm : 1 < m) :
    prevDay ⟨y, m, 1⟩ = ⟨y, m - 1, daysInMonth y (m - 1)⟩ := by
  simp only [prevDay]
  split_ifs with h1
  · exact absurd h1 (by omega)
  · rfl

/-- Stepping back one day from January 1st lands on December 31st of the
preceding year. -/
lemma prevDay_first_of_jan (y : Nat) : prevDay ⟨y, 1, 1⟩ = ⟨y - 1, 12, 31⟩ := by
  simp only [prevDay]
  split_ifs with h1
  · exact absurd h1 (by omega)
  · rfl

/-- C8: whenever the time-reference resolver returns a range with both
bounds present (for a real `today`, with month in 1..12), the start date
is at most the end date. -/
theorem c8_resolved_range_start_le_end (today : SDate)
    (hm1 : 1 ≤ today.month) (hm2 : today.month ≤ 12)
    (tr : Option String) (a b : SDate)
    (h : resolveTimeReference today tr = (some a, some b)) :
    SDate.ble a b = true := by
  cases tr with
  | none => simp [resolveTimeReference] at h
  | some raw =>
    simp only [resolveTimeReference] at h
    by_cases hraw : raw = ""
    · rw [if_pos hraw] at h
      simp at h
    · rw [if_neg hraw] at h
      by_cases hc1 : strTrim (strLower raw) = "this month" ∨
          strTrim (strLower raw) = "current month"
      · rw [if_pos hc1] at h
        by_cases h12 : today.month = 12
        · rw [if_pos h12, prevDay_jan_first] at h
          simp only [Prod.mk.injEq, Option.some.injEq] at h
          obtain ⟨ha, hb⟩ := h
          subst ha
          subst hb
          rw [h12]
          exact sdate_ble_same _ _ _ _ (by omega)
        · rw [if_neg h12, prevDay_month_first _ _ hm1] at h
          simp only [Prod.mk.injEq, Option.some.injEq] at h
          obtain ⟨ha, hb⟩ := h
          subst ha
          subst hb
          exact sdate_ble_same _ _ _ _ (daysInMonth_pos _ _)
      · rw [if_neg hc1] at h
        by_cases hc2 : strTrim (strLower raw) = "last month" ∨
            strTrim (strLower raw) = "previous month"
        · rw [if_pos hc2] at h
          by_cases hjan : 1 < today.month
          · rw [prevDay_first_of_month _ _ hjan] at h
            simp only [Prod.mk.injEq, Option.some.injEq] at h
            obtain ⟨ha, hb⟩ := h
            subst ha
            subst hb
            exact sdate_ble_same _ _ _ _ (daysInMonth_pos _ _)
          · have hm0 : today.month = 1 := by omega
            rw [hm0, prevDay_first_of_jan] at h
            simp only [Prod.mk.injEq, Option.some.injEq] at h
            obtain ⟨ha, hb⟩ := h
            subst ha
            subst hb
            exact sdate_ble_same _ _ _ _ (by omega)
        · rw [if_neg hc2] at h
          by_cases hc3 : strTrim (strLower raw) = "this year" ∨
              strTrim (strLower raw) = "current year"
          · rw [if_pos hc3] at h
            simp only [Prod.mk.injEq, Option.some.injEq] at h
            obtain ⟨ha, hb⟩ := h
            subst ha
            subst hb
            exact sdate_ble_jan_dec _
          · rw [if_neg hc3] at h
            by_cases hc4 : strTrim (strLower raw) = "last year" ∨
                strTrim (strLower raw) = "previous year"
            · rw [if_pos hc4] at h
              simp only [Prod.mk.injEq, Option.some.injEq] at h
              obtain ⟨ha, hb⟩ := h
              subst ha
              subst hb
              exact sdate_ble_jan_dec _
            · rw [if_neg hc4] at h
              revert h
              cases hfind : List.find?
                  (fun q => strContains (strTrim (strLower raw)) q.1) monthNames with
              | some p =>
                intro h
                have hp := monthNames_bounds p (List.mem_of_find?_eq_some hfind)
                simp only [Prod.mk.injEq, Option.some.injEq] at h
                obtain ⟨ha, hb⟩ := h
                subst ha
                subst hb
                by_cases h12 : p.2 = 12
                · rw [if_pos h12, prevDay_jan_first, h12]
                  exact sdate_ble_same _ _ _ _ (by omega)
                · rw [if_neg h12, prevDay_month_first _ _ hp.1]
                  exact sdate_ble_same _ _ _ _ (daysInMonth_pos _ _)
              | none =>
                cases hyear : findYearToken (strTrim (strLower raw)).toList with
                | some y =>
                  intro h
                  simp only [Prod.mk.injEq, Option.some.injEq] at h
                  obtain ⟨ha, hb⟩ := h
                  subst ha
                  subst hb
                  exact sdate_ble_jan_dec _
                | none =>
                  intro h
                  simp only [Prod.mk.injEq] at h
                  exact absurd h.1 (by simp)

/-- C8 witness: "last month" asked on 2025-01-15 gives the December 2024
range, and its bounds are ordered. -/
theorem c8_resolved_range_witness :
    SDate.ble ⟨2024, 12, 1⟩ ⟨2024, 12, 31⟩ = true :=
  c8_resolved_range_start_le_end ⟨2025, 1, 15⟩ (by decide) (by decide)
    (some "last month") ⟨2024, 12, 1⟩ ⟨2024, 12, 31⟩ (by decide)

/-! ## C9 -/

/-- Every issue the semantic stage can emit carries severity `warning`,
never `error`. -/
lemma semanticIssues_no_errors (s : AppSettings) (mf mr : SDate)
    (e : ExtractedBillData) :
    (semanticIssues s mf mr e).any (fun i => i.severity == "error") = false := by
  simp only [semanticIssues, List.any_append, Bool.or_eq_false_iff]
  refine ⟨⟨⟨⟨⟨⟨⟨?_, ?_⟩, ?_⟩, ?_⟩, ?_⟩, ?_⟩, ?_⟩, ?_⟩
  all_goals repeat' split
  all_goals simp

/-- Stage 2 always reports valid. -/
lemma validateSemantic_always_valid (s : AppSettings) (today : SDate)
    (e : ExtractedBillData) : (validateSemantic s today e).1 = true := by
  simp only [validateSemantic]
  rw [semanticIssues_no_errors]
  rfl

/-- C9: the overall `is_valid` flag always equals `schema_valid` (semantic
validation, when it runs, emits only warnings and thus always passes; when
schema validation fails the semantic stage is skipped and reported
failed), and `semantic_valid` itself always equals `schema_valid`. -/
theorem c9_is_valid_eq_schema_valid (s : AppSettings) (today : SDate)
    (storage : Option (List ConfirmedBill)) (checkDup : Bool)
    (e : ExtractedBillData) :
    (validate s today storage checkDup e).is_valid
      = (validate s today storage checkDup e).schema_valid
    ∧ (validate s today storage checkDup e).semantic_valid
      = (validate s today storage checkDup e).schema_valid := by
  unfold validate
  by_cases hs : (validateSchema e).1 = true
  · simp [hs, validateSemantic_always_valid]
  · have hs' : (validateSchema e).1 = false := by
      cases h : (validateSchema e).1
      · rfl
      · exact absurd h hs
    simp [hs']

/-! ## C3 -/

/-- Date comparison is reflexive. -/
lemma sdate_ble_refl (d : SDate) : SDate.ble d d = true := by
  rw [sdate_ble_iff]
  simp

/-- Two opposite date comparisons hold together exactly on equal dates. -/
lemma sdate_ble_antisymm (x d : SDate) :
    (SDate.ble d x && SDate.ble x d) = (x == d) := by
  rcases x with ⟨y1, m1, d1⟩
  rcases d with ⟨y2, m2, d2⟩
  rw [Bool.eq_iff_iff]
  simp only [Bool.and_eq_true, sdate_ble_iff, beq_iff_eq, SDate.mk.injEq]
  omega

/-- For the duplicate check's filter call (vendor plus a one-day date
range, nothing else), the conjunctive filter collapses to vendor
containment and date equality. -/
lemma matchesBillFilters_vendor_date (v : String) (hv : v ≠ "") (d : SDate)
    (b : ConfirmedBill) :
    matchesBillFilters none (some v) (some d) (some d) none b =
      (strContains (strLower b.vendor_name) (strLower v) && b.bill_date == d) := by
  simp only [matchesBillFilters, Bool.true_and, Bool.and_true]
  have hvb : (v == "") = false := by simp [hv]
  rw [hvb]
  simp only [Bool.false_or]
  rw [Bool.and_assoc, sdate_ble_antisymm]

/-- Sorting by date is the identity on a list whose bills all share one
date (the situation inside `bill_exists`, where the date range is a
single day). -/
lemma sortByDateDesc_const (d : SDate) :
    ∀ l : List ConfirmedBill, (∀ b ∈ l, b.bill_date = d) → sortByDateDesc l = l := by
  intro l
  induction l with
  | nil => intro _; rfl
  | cons x xs ih =>
    intro hall
    have hxs : sortByDateDesc xs = xs :=
      ih (fun b hb => hall b (List.mem_cons_of_mem _ hb))
    show insertByDateDesc x (sortByDateDesc xs) = x :: xs
    rw [hxs]
    cases xs with
    | nil => rfl
    | cons y ys =>
      have hx : x.bill_date = d := hall x (List.mem_cons_self _ _)
      have hy : y.bill_date = d := hall y (by simp)
      unfold insertByDateDesc
      rw [hy, hx, sdate_ble_refl]
      simp

/-- Characterisation of `bill_exists` over an in-memory store: it answers
true exactly when a nonempty bill number is supplied and one of the first
100 stored bills matching the vendor substring and the exact date carries
that number. -/
lemma billExists_iff (stored : List ConfirmedBill) (v : String) (hv : v ≠ "")
    (bn : Option String) (d : SDate) :
    billExists stored v bn d = true ↔
      ∃ n, bn = some n ∧ n ≠ "" ∧
        ∃ b ∈ (stored.filter (fun b =>
            strContains (strLower b.vendor_name) (strLower v)
              && b.bill_date == d)).take 100,
          b.bill_number = some n := by
  unfold billExists listBills
  have hfilter :
      stored.filter (matchesBillFilters none (some v) (some d) (some d) none)
        = stored.filter (fun b =>
            strContains (strLower b.vendor_name) (strLower v) && b.bill_date == d) :=
    List.filter_congr (fun b _ => matchesBillFilters_vendor_date v hv d b)
  rw [hfilter]
  rw [sortByDateDesc_const d _ (fun b hb => by
    have := (List.mem_filter.mp hb).2
    have := (Bool.and_eq_true _ _).mp this
    exact beq_iff_eq.mp this.2)]
  rw [List.drop_zero]
  cases bn with
  | none => simp
  | some n =>
    by_cases hn : n = ""
    · subst hn
      simp
    · simp [List.any_eq_true, hn]

/-- The stored bill used by the C3 counterexample: vendor "Amazon". -/
def c3Stored : List ConfirmedBill :=
  [⟨"s1", "Amazon", .other, 100, ⟨2025, 3, 1⟩, none, .paid, some "B1"⟩]

/-- The extraction used by the C3 counterexample: vendor "Ama" (a proper
substring of "Amazon"), same date and bill number as the stored bill. -/
def c3Extract : ExtractedBillData :=
  { extraction_id := "e3"
    confidence_score := 1
    vendor := some ⟨"Ama"⟩
    bill_number := some "B1"
    bill_date := some ⟨2025, 3, 1⟩
    due_date := none
    billing_period_start := none
    billing_period_end := none
    subtotal := none
    tax_amount := none
    total_amount := some 100 }

/-- C3 counterexample: the pipeline flags a `potential_duplicate` for the
vendor hint "Ama" against a stored bill from "Amazon" (the vendor filter
is substring containment, not equality), even though no stored bill for
the vendor "Ama" exists — so "flags iff some stored bill for that vendor
and date has exactly that bill number" fails at this input. -/
theorem c3_counterexample :
    ((checkDuplicates (some c3Stored) c3Extract).any
        (fun i => i.issue_type == "potential_duplicate")) = true
    ∧ ¬ ∃ b ∈ c3Stored, b.vendor_name = "Ama"
          ∧ b.bill_date = (⟨2025, 3, 1⟩ : SDate) ∧ b.bill_number = some "B1" := by
  constructor
  · rfl
  · decide

/-- C3 amended: for an extraction with a vendor (nonempty name) and a
bill date, the pipeline flags `potential_duplicate` iff the extraction
carries a nonempty bill number and some bill among the first 100 stored
bills whose vendor name contains the extraction's vendor name
case-insensitively and whose bill date equals the extraction's bill date
has exactly that bill number. -/
theorem c3_duplicate_flag_iff (stored : List ConfirmedBill)
    (e : ExtractedBillData) (v : VendorInfo) (d : SDate)
    (hv : e.vendor = some v) (hd : e.bill_date = some d)
    (hvn : v.name ≠ "") :
    ((checkDuplicates (some stored) e).any
        (fun i => i.issue_type == "potential_duplicate")) = true
      ↔ ∃ n, e.bill_number = some n ∧ n ≠ "" ∧
          ∃ b ∈ (stored.filter (fun b =>
              strContains (strLower b.vendor_name) (strLower v.name)
                && b.bill_date == d)).take 100,
            b.bill_number = some n := by
  have hred : checkDuplicates (some stored) e =
      (if billExists stored v.name e.bill_number d then
        [⟨"duplicate", "potential_duplicate", "warning"⟩] else []) := by
    unfold checkDuplicates
    rw [hv, hd]
  rw [hred]
  have hbx := billExists_iff stored v.name hvn e.bill_number d
  by_cases hex : billExists stored v.name e.bill_number d = true
  · rw [if_pos hex]
    constructor
    · intro _
      exact hbx.mp hex
    · intro _
      rfl
  · rw [if_neg hex]
    constructor
    · intro hfa
      exact absurd hfa (by simp)
    · intro hR
      exact absurd (hbx.mpr hR) hex

/-- The extraction used by the amended-C3 witness: vendor "Amazon",
matching the stored bill exactly. -/
def c3ExactExtract : ExtractedBillData :=
  { extraction_id := "e3w"
    confidence_score := 1
    vendor := some ⟨"Amazon"⟩
    bill_number := some "B1"
    bill_date := some ⟨2025, 3, 1⟩
    due_date := none
    billing_period_start := none
    billing_period_end := none
    subtotal := none
    tax_amount := none
    total_amount := some 100 }

/-- C3 amended, witness: the iff instantiated at the exact-vendor
extraction against the stored bill. -/
theorem c3_duplicate_flag_iff_witness :
    ((checkDuplicates (some c3Stored) c3ExactExtract).any
        (fun i => i.issue_type == "potential_duplicate")) = true
      ↔ ∃ n, c3ExactExtract.bill_number = some n ∧ n ≠ "" ∧
          ∃ b ∈ (c3Stored.filter (fun b =>
              strContains (strLower b.vendor_name) (strLower "Amazon")
                && b.bill_date == (⟨2025, 3, 1⟩ : SDate))).take 100,
            b.bill_number = some n :=
  c3_duplicate_flag_iff c3Stored c3ExactExtract ⟨"Amazon"⟩ ⟨2025, 3, 1⟩
    rfl rfl (by decide)

end PersonalAccountant
